import Mathlib

/-!
Shallow embedding of the virtio vsock driver (`src/device/socket/vsock.rs`):
the connection-record credit accounting, the send path with its
insufficient-peer-buffer escalation, the packet codec
(`read_header_and_body`), and the receive poll / event classification
(`poll_rx_queue`, `pop_packet_from_rx_queue`).

Machine integers are modelled as `Nat` with explicit reduction modulo
`2^32` wherever the Rust `u32` arithmetic can wrap, and the `usize`
arithmetic of the codec is parametrised by the largest representable
`usize` value.  The virtqueue and transport collaborators are out of
scope for the driver's specification; the tx queue is modelled as a log
of transmitted packets (a transmit appends one `(header, body)` pair),
and the rx queue interaction of one poll is modelled by the token peeked,
the contents of the corresponding slot, and the token the re-add returns.
-/

namespace Vsock

/-- The modulus of Rust `u32` arithmetic, `2^32`. -/
def U32M : Nat := 4294967296

/-- Wrapping `u32` subtraction: `a - b` computed in `Z/2^32` (Rust release-mode
overflow semantics for `u32` subtraction). -/
def wsub (a b : Nat) : Nat := (a % U32M + (U32M - b % U32M)) % U32M

/-- A vsock endpoint address: the (context id, port) pair. -/
structure VsockAddr where
  cid : Nat
  port : Nat
  deriving DecidableEq, Repr

/-- The socket error cases reachable from the embedded code paths
(`SocketError` in `error.rs`; the constructors appearing in `vsock.rs`). -/
inductive SocketError where
  | BufferTooShort
  | InvalidNumber
  | OutputBufferTooShort (required : Nat)
  | InvalidOperation
  | UnexpectedDataInPacket
  | InsufficientBufferSpaceInPeer
  deriving DecidableEq, Repr

/-- The operation codes of the vsock protocol header.
Modelled from the spec: the `VirtioVsockOp` enum lives in `protocol.rs`,
which is not under `src/`; the spec lists exactly these operations
(connection-request, response, reset, shutdown, data read/write,
credit-update, credit-request) plus an explicit invalid case. -/
inductive VirtioVsockOp where
  | Invalid
  | Request
  | Response
  | Rst
  | Shutdown
  | Rw
  | CreditUpdate
  | CreditRequest
  deriving DecidableEq, Repr

/-- Numeric wire value of the connection-request op. -/
def OP_REQUEST : Nat := 1
/-- Numeric wire value of the response op. -/
def OP_RESPONSE : Nat := 2
/-- Numeric wire value of the reset op. -/
def OP_RST : Nat := 3
/-- Numeric wire value of the shutdown op. -/
def OP_SHUTDOWN : Nat := 4
/-- Numeric wire value of the data (read/write) op. -/
def OP_RW : Nat := 5
/-- Numeric wire value of the credit-update op. -/
def OP_CREDIT_UPDATE : Nat := 6
/-- Numeric wire value of the credit-request op. -/
def OP_CREDIT_REQUEST : Nat := 7

/-- Decoding of the numeric op field into `VirtioVsockOp`.
Modelled from the spec: `protocol.rs` is not under `src/`; per the spec,
every code other than the seven recognised operations is classified as
invalid ("any other/invalid code → fails with an invalid-operation
error"), which `poll_rx_queue` then turns into the invalid-operation
error. -/
def opFromU16 (n : Nat) : VirtioVsockOp :=
  if n = OP_REQUEST then .Request
  else if n = OP_RESPONSE then .Response
  else if n = OP_RST then .Rst
  else if n = OP_SHUTDOWN then .Shutdown
  else if n = OP_RW then .Rw
  else if n = OP_CREDIT_UPDATE then .CreditUpdate
  else if n = OP_CREDIT_REQUEST then .CreditRequest
  else .Invalid

/-- The fixed-layout vsock packet header.  Field order and widths follow
the wire packet description in the spec (source/destination endpoint,
declared body length, operation code, peer buffer allocation, peer
forward count); all fields are handled as plain numbers here. -/
structure VirtioVsockHdr where
  src_cid : Nat
  dst_cid : Nat
  src_port : Nat
  dst_port : Nat
  len : Nat
  ty : Nat
  op : Nat
  flags : Nat
  buf_alloc : Nat
  fwd_cnt : Nat
  deriving DecidableEq, Repr

/-- The all-zero default header (`Default::default()` in the source). -/
def hdrDefault : VirtioVsockHdr :=
  { src_cid := 0, dst_cid := 0, src_port := 0, dst_port := 0, len := 0,
    ty := 0, op := 0, flags := 0, buf_alloc := 0, fwd_cnt := 0 }

/-- The source endpoint named by a header.
Modelled from the spec: the accessor lives in `protocol.rs`, not under
`src/`; the spec says an event carries "source endpoint" = the peer's
(cid, port). -/
def VirtioVsockHdr.source (h : VirtioVsockHdr) : VsockAddr :=
  { cid := h.src_cid, port := h.src_port }

/-- The destination endpoint named by a header.
Modelled from the spec: the accessor lives in `protocol.rs`, not under
`src/`. -/
def VirtioVsockHdr.destination (h : VirtioVsockHdr) : VsockAddr :=
  { cid := h.dst_cid, port := h.dst_port }

/-- Body-emptiness validation of a header.
Modelled from the spec: `check_data_is_empty` lives in `protocol.rs`,
not under `src/`; per the spec, every "body must be empty" branch fails
with a body-validation error if the header declares a non-zero length. -/
def VirtioVsockHdr.check_data_is_empty (h : VirtioVsockHdr) :
    Except SocketError Unit :=
  if h.len = 0 then .ok () else .error .UnexpectedDataInPacket

/-- Buffer status snapshot carried by every received packet. -/
structure VsockBufferStatus where
  buffer_allocation : Nat
  forward_count : Nat
  deriving DecidableEq, Repr

/-- The reason why a vsock connection was closed. -/
inductive DisconnectReason where
  | Reset
  | Shutdown
  deriving DecidableEq, Repr

/-- Details of the type of an event received from a VirtIO socket. -/
inductive VsockEventType where
  | Connected
  | Disconnected (reason : DisconnectReason)
  | Received (length : Nat)
  | CreditRequest
  | CreditUpdate
  deriving DecidableEq, Repr

/-- An event received from a VirtIO socket device. -/
structure VsockEvent where
  source : VsockAddr
  destination : VsockAddr
  buffer_status : VsockBufferStatus
  event_type : VsockEventType
  deriving DecidableEq, Repr

/-- Per-connection flow-control state (`ConnectionInfo` in the source).
All counters are `u32` values, kept as `Nat` below `2^32` by the
operations. -/
structure ConnectionInfo where
  dst : VsockAddr
  src_port : Nat
  peer_buf_alloc : Nat
  peer_fwd_cnt : Nat
  tx_cnt : Nat
  fwd_cnt : Nat
  has_pending_credit_request : Bool
  deriving DecidableEq, Repr

/-- Embeds `ConnectionInfo::new`: destination and source port set, every other
field defaulted (counters zero, pending flag false). -/
def ConnectionInfo.new (destination : VsockAddr) (src_port : Nat) :
    ConnectionInfo :=
  { dst := destination, src_port := src_port, peer_buf_alloc := 0,
    peer_fwd_cnt := 0, tx_cnt := 0, fwd_cnt := 0,
    has_pending_credit_request := false }

/-- Embeds `ConnectionInfo::update_for_event`: refresh the peer credit fields from
the event's buffer status, and clear the pending credit request flag on a
credit-update event. -/
def ConnectionInfo.update_for_event (c : ConnectionInfo) (event : VsockEvent) :
    ConnectionInfo :=
  { c with
    peer_buf_alloc := event.buffer_status.buffer_allocation,
    peer_fwd_cnt := event.buffer_status.forward_count,
    has_pending_credit_request :=
      match event.event_type with
      | .CreditUpdate => false
      | _ => c.has_pending_credit_request }

/-- Embeds `ConnectionInfo::done_forwarding`: `self.fwd_cnt += length as u32`,
with the `usize → u32` cast and the addition both wrapping modulo `2^32`. -/
def ConnectionInfo.done_forwarding (c : ConnectionInfo) (length : Nat) :
    ConnectionInfo :=
  { c with fwd_cnt := (c.fwd_cnt + length % U32M) % U32M }

/-- Embeds `ConnectionInfo::peer_free`:
`self.peer_buf_alloc - (self.tx_cnt - self.peer_fwd_cnt)` with both
subtractions performed in wrapping `u32` arithmetic. -/
def ConnectionInfo.peer_free (c : ConnectionInfo) : Nat :=
  wsub c.peer_buf_alloc (wsub c.tx_cnt c.peer_fwd_cnt)

/-- Embeds `ConnectionInfo::new_header`: a default header with the connection's
addressing fields and the current forwarded count filled in. -/
def ConnectionInfo.new_header (c : ConnectionInfo) (src_cid : Nat) :
    VirtioVsockHdr :=
  { hdrDefault with
    src_cid := src_cid,
    dst_cid := c.dst.cid,
    src_port := c.src_port,
    dst_port := c.dst.port,
    fwd_cnt := c.fwd_cnt }

/-- Little-endian read of `n` bytes of `bytes` starting at offset `off`
(missing positions read as 0; the codec only uses in-range offsets). -/
def readLE (bytes : List Nat) (off : Nat) : Nat → Nat
  | 0 => 0
  | n + 1 => bytes.getD off 0 + 256 * readLE bytes (off + 1) n

/-- Size in bytes of the wire header.
Modelled from the spec: the concrete layout lives in `protocol.rs`, not
under `src/`; the standard fixed layout of the header fields listed in
the spec (two 64-bit cids, two 32-bit ports, 32-bit length, 16-bit type,
16-bit op, 32-bit flags, 32-bit buffer allocation, 32-bit forward count)
occupies 44 bytes. -/
def HDR_SIZE : Nat := 44

/-- Decode the fixed-layout header from the front of a raw buffer.
Modelled from the spec: the wire-format decoding primitive
(`VirtioVsockHdr` as a `FromBytes` prefix) lives in `protocol.rs`, not
under `src/`; fields are read little-endian at the fixed offsets of the
layout described at `HDR_SIZE`. -/
def decodeHdr (bytes : List Nat) : VirtioVsockHdr :=
  { src_cid := readLE bytes 0 8,
    dst_cid := readLE bytes 8 8,
    src_port := readLE bytes 16 4,
    dst_port := readLE bytes 20 4,
    len := readLE bytes 24 4,
    ty := readLE bytes 28 2,
    op := readLE bytes 30 2,
    flags := readLE bytes 32 4,
    buf_alloc := readLE bytes 36 4,
    fwd_cnt := readLE bytes 40 4 }

/-- Embeds `read_header_and_body`: parse the header from the front of `buffer`,
then copy the declared body into `body`.  `usizeMax` is the largest value
representable in the target's `usize` (the bound of `checked_add`).  On
success the returned list is the new contents of the caller's `body`
buffer: the declared body bytes followed by the untouched tail. -/
def read_header_and_body (usizeMax : Nat) (buffer body : List Nat) :
    Except SocketError (VirtioVsockHdr × List Nat) :=
  if buffer.length < HDR_SIZE then .error .BufferTooShort
  else
    let header := decodeHdr buffer
    let body_length := header.len
    if usizeMax < HDR_SIZE + body_length then .error .InvalidNumber
    else if buffer.length < HDR_SIZE + body_length then .error .BufferTooShort
    else if body.length < body_length then
      .error (.OutputBufferTooShort body_length)
    else
      .ok (header, (buffer.drop HDR_SIZE).take body_length
                     ++ body.drop body_length)

/-- The transmit-side driver state: the guest cid read at construction and
the log of packets pushed to the tx queue.  The queue and transport
collaborators are out of scope; `send_packet_to_tx_queue` is modelled as
appending the packet to the log. -/
structure DriverState where
  guest_cid : Nat
  txPackets : List (VirtioVsockHdr × List Nat)
  deriving DecidableEq, Repr

/-- Embeds `send_packet_to_tx_queue`: transmit one header + body packet
(modelled as appending it to the transmit log). -/
def send_packet_to_tx_queue (s : DriverState) (header : VirtioVsockHdr)
    (buffer : List Nat) : DriverState :=
  { s with txPackets := s.txPackets ++ [(header, buffer)] }

/-- Embeds `request_credit`: transmit a credit-request control packet (header
only) for the given connection. -/
def request_credit (s : DriverState) (c : ConnectionInfo) : DriverState :=
  send_packet_to_tx_queue s
    { c.new_header s.guest_cid with op := OP_CREDIT_REQUEST } []

/-- Embeds `check_peer_buffer_is_sufficient`: admit the payload if the cached
peer credit covers it; otherwise transmit a credit request unless one is
already pending, set the pending flag, and fail with the
insufficient-peer-buffer error. -/
def check_peer_buffer_is_sufficient (s : DriverState) (c : ConnectionInfo)
    (buffer_len : Nat) :
    Except SocketError Unit × DriverState × ConnectionInfo :=
  if buffer_len ≤ c.peer_free then (.ok (), s, c)
  else if c.has_pending_credit_request then
    (.error .InsufficientBufferSpaceInPeer, s, c)
  else
    (.error .InsufficientBufferSpaceInPeer, request_credit s c,
      { c with has_pending_credit_request := true })

/-- Embeds `send`: flow-control check, then build the data header, advance
`tx_cnt` by the payload length (`u32` cast and addition wrapping modulo
`2^32`), and transmit the data packet. -/
def send (s : DriverState) (buffer : List Nat) (c : ConnectionInfo) :
    Except SocketError Unit × DriverState × ConnectionInfo :=
  match check_peer_buffer_is_sufficient s c buffer.length with
  | (.error e, s1, c1) => (.error e, s1, c1)
  | (.ok _, s1, c1) =>
    let len := buffer.length % U32M
    let header :=
      { c1.new_header s1.guest_cid with
        op := OP_RW, len := len, buf_alloc := 0 }
    let c2 := { c1 with tx_cnt := (c1.tx_cnt + len) % U32M }
    (.ok (), send_packet_to_tx_queue s1 header buffer, c2)

deriving instance DecidableEq for Except

/-- Outcome of one rx-queue pop: either the fatal token-mismatch assertion
failure, or the result the source function returns (`Ok(None)` for an
empty queue, the decode error, or the decoded header together with the
new contents of the caller's body buffer). -/
inductive PopOutcome where
  | fatal
  | res (r : Except SocketError (Option (VirtioVsockHdr × List Nat)))
  deriving DecidableEq, Repr

/-- Embeds `pop_packet_from_rx_queue` for one poll.  `peeked` is what
`rx.peek_used()` returns; `buffer` is the contents of the slot the token
maps to; `newToken` is the token `rx.add` hands back when the slot is
resubmitted.  The returned flag records whether the slot was resubmitted
(`rx.add` was reached).  Decoding happens before the resubmission and its
result is only consulted afterwards; a resubmission token different from
the popped one is the fatal assertion failure. -/
def pop_packet_from_rx_queue (usizeMax : Nat) (peeked : Option Nat)
    (buffer body : List Nat) (newToken : Nat) : PopOutcome × Bool :=
  match peeked with
  | none => (.res (.ok none), false)
  | some token =>
    let header_result := read_header_and_body usizeMax buffer body
    if newToken = token then
      match header_result with
      | .ok (h, b) => (.res (.ok (some (h, b))), true)
      | .error e => (.res (.error e), true)
    else (.fatal, true)

/-- Outcome of one receive poll: fatal token mismatch, or the result
(`none`, an event, or a decode/validation error) together with the final
contents of the caller's body buffer. -/
inductive RxOutcome where
  | fatal
  | res (r : Except SocketError (Option VsockEvent)) (body : List Nat)
  deriving DecidableEq, Repr

/-- Embeds `poll_rx_queue` for one poll: pop at most one completed entry, then
dispatch on the operation code exactly as the source's `match`. -/
def poll_rx_queue (usizeMax : Nat) (peeked : Option Nat)
    (buffer body : List Nat) (newToken : Nat) : RxOutcome × Bool :=
  match pop_packet_from_rx_queue usizeMax peeked buffer body newToken with
  | (.fatal, r) => (.fatal, r)
  | (.res (.error e), r) => (.res (.error e) body, r)
  | (.res (.ok none), r) => (.res (.ok none) body, r)
  | (.res (.ok (some (header, body2))), r) =>
    let op := opFromU16 header.op
    let buffer_status : VsockBufferStatus :=
      { buffer_allocation := header.buf_alloc, forward_count := header.fwd_cnt }
    let source := header.source
    let destination := header.destination
    let e : Except SocketError (Option VsockEvent) :=
      match op with
      | .Request =>
        match header.check_data_is_empty with
        | .error e => .error e
        | .ok _ => .ok none
      | .Response =>
        match header.check_data_is_empty with
        | .error e => .error e
        | .ok _ => .ok (some { source, destination, buffer_status,
                               event_type := .Connected })
      | .CreditUpdate =>
        match header.check_data_is_empty with
        | .error e => .error e
        | .ok _ => .ok (some { source, destination, buffer_status,
                               event_type := .CreditUpdate })
      | .Rst =>
        match header.check_data_is_empty with
        | .error e => .error e
        | .ok _ => .ok (some { source, destination, buffer_status,
                               event_type := .Disconnected .Reset })
      | .Shutdown =>
        match header.check_data_is_empty with
        | .error e => .error e
        | .ok _ => .ok (some { source, destination, buffer_status,
                               event_type := .Disconnected .Shutdown })
      | .Rw => .ok (some { source, destination, buffer_status,
                           event_type := .Received header.len })
      | .CreditRequest =>
        match header.check_data_is_empty with
        | .error e => .error e
        | .ok _ => .ok (some { source, destination, buffer_status,
                               event_type := .CreditRequest })
      | .Invalid => .error .InvalidOperation
    (.res e body2, r)

theorem wsub_lt (a b : Nat) : wsub a b < U32M := by
  unfold wsub
  exact Nat.mod_lt _ (by decide)

theorem wsub_eq_sub {a b : Nat} (ha : a < U32M) (hba : b ≤ a) :
    wsub a b = a - b := by
  have hb : b < U32M := lt_of_le_of_lt hba ha
  unfold wsub
  rw [Nat.mod_eq_of_lt ha, Nat.mod_eq_of_lt hb]
  have h1 : a + (U32M - b) = (a - b) + U32M := by omega
  rw [h1, Nat.add_mod_right, Nat.mod_eq_of_lt (by omega)]

theorem peer_free_lt (c : ConnectionInfo) : c.peer_free < U32M :=
  wsub_lt _ _

/-- C3 (counterexample): with peer allocation 0, transmitted 1 and peer
forwarded 0 the wrapping `u32` subtraction underflows, so `peer_free` is
`2^32 - 1` rather than the mathematical `allocation − (transmitted −
forwarded)` value. -/
theorem c3_counterexample :
    ConnectionInfo.peer_free
      { dst := ⟨0, 0⟩, src_port := 0, peer_buf_alloc := 0,
        peer_fwd_cnt := 0, tx_cnt := 1, fwd_cnt := 0,
        has_pending_credit_request := false } = 4294967295
    ∧ ¬ ((4294967295 : Int) = (0 : Int) - ((1 : Int) - (0 : Int))) :=
  ⟨by decide, by decide⟩

/-- C3 (amended): for every connection record whose counters are in `u32`
range and satisfy the intended accounting invariant
(`peer_fwd_cnt ≤ tx_cnt` and `tx_cnt − peer_fwd_cnt ≤ peer_buf_alloc`),
`peer_free` equals `peer_buf_alloc − (tx_cnt − peer_fwd_cnt)`; in
particular allocation 100, transmitted 30, forwarded 10 gives 80. -/
theorem c3_peer_free (c : ConnectionInfo) (ha : c.peer_buf_alloc < U32M)
    (ht : c.tx_cnt < U32M) (hf : c.peer_fwd_cnt ≤ c.tx_cnt)
    (hb : c.tx_cnt - c.peer_fwd_cnt ≤ c.peer_buf_alloc) :
    c.peer_free = c.peer_buf_alloc - (c.tx_cnt - c.peer_fwd_cnt) := by
  unfold ConnectionInfo.peer_free
  rw [wsub_eq_sub ht hf, wsub_eq_sub ha hb]

/-- C3 (witness): the amended formula at allocation 100, transmitted 30,
forwarded 10 yields 80. -/
theorem c3_witness :
    ConnectionInfo.peer_free
      { dst := ⟨0, 0⟩, src_port := 0, peer_buf_alloc := 100,
        peer_fwd_cnt := 10, tx_cnt := 30, fwd_cnt := 0,
        has_pending_credit_request := false } = 80 := by
  have h := c3_peer_free
    { dst := ⟨0, 0⟩, src_port := 0, peer_buf_alloc := 100,
      peer_fwd_cnt := 10, tx_cnt := 30, fwd_cnt := 0,
      has_pending_credit_request := false }
    (by decide) (by decide) (by decide) (by decide)
  simpa using h

/-- C5: ingesting any event unconditionally refreshes the peer-advertised
allocation and forward count from the event's buffer status snapshot,
sets the pending credit request flag to false exactly when the event is a
credit-update event (leaving it at its prior value otherwise), and
changes no other field of the record. -/
theorem c5_update_for_event (c : ConnectionInfo) (e : VsockEvent) :
    (c.update_for_event e).peer_buf_alloc = e.buffer_status.buffer_allocation
    ∧ (c.update_for_event e).peer_fwd_cnt = e.buffer_status.forward_count
    ∧ (c.update_for_event e).has_pending_credit_request
        = (if e.event_type = .CreditUpdate then false
           else c.has_pending_credit_request)
    ∧ (c.update_for_event e).dst = c.dst
    ∧ (c.update_for_event e).src_port = c.src_port
    ∧ (c.update_for_event e).tx_cnt = c.tx_cnt
    ∧ (c.update_for_event e).fwd_cnt = c.fwd_cnt := by
  unfold ConnectionInfo.update_for_event
  refine ⟨rfl, rfl, ?_, rfl, rfl, rfl, rfl⟩
  cases e.event_type <;> simp

/-- C8: there are counter values (peer allocation 0, transmitted 1, peer
forwarded 0) on which the `u32` subtractions in `peer_free` underflow:
`peer_free` becomes the large wrapped value `2^32 - 1` instead of the
mathematical `allocation − (transmitted − forwarded)`, and the
flow-control check in `send` then admits a payload (1000 bytes) far
larger than the peer's advertised capacity (0 bytes). -/
theorem c8_peer_free_underflow :
    ∃ c : ConnectionInfo,
      c.peer_buf_alloc = 0 ∧ c.tx_cnt = 1 ∧ c.peer_fwd_cnt = 0
      ∧ c.peer_free = 4294967295
      ∧ ¬ ((c.peer_free : Int)
            = (c.peer_buf_alloc : Int)
                - ((c.tx_cnt : Int) - (c.peer_fwd_cnt : Int)))
      ∧ (check_peer_buffer_is_sufficient { guest_cid := 0, txPackets := [] }
            c 1000).1 = .ok ()
      ∧ c.peer_buf_alloc < 1000 := by
  refine ⟨{ dst := ⟨0, 0⟩, src_port := 0, peer_buf_alloc := 0,
            peer_fwd_cnt := 0, tx_cnt := 1, fwd_cnt := 0,
            has_pending_credit_request := false }, ?_, ?_, ?_, ?_, ?_, ?_, ?_⟩
    <;> decide

/-- C9 (counterexample): at `fwd_cnt = 2^32 - 1`, acknowledging one more
byte wraps the `u32` forwarded counter to 0 — the counter decreases and is
not increased by exactly the acknowledged amount. -/
theorem c9_counterexample :
    ∃ (c : ConnectionInfo) (n : Nat),
      (c.done_forwarding n).fwd_cnt < c.fwd_cnt
      ∧ (c.done_forwarding n).fwd_cnt ≠ c.fwd_cnt + n := by
  refine ⟨{ dst := ⟨0, 0⟩, src_port := 0, peer_buf_alloc := 0,
            peer_fwd_cnt := 0, tx_cnt := 0, fwd_cnt := 4294967295,
            has_pending_credit_request := false }, 1, ?_, ?_⟩ <;> decide

/-- C9 (amended): as long as the `u32` forwarded counter does not
overflow (`fwd_cnt + N < 2^32`), acknowledging `N` consumed bytes
increases the forwarded counter by exactly `N`, so in particular it never
decreases; at the overflow boundary the counter wraps modulo `2^32`. -/
theorem c9_done_forwarding (c : ConnectionInfo) (n : Nat)
    (h : c.fwd_cnt + n < U32M) :
    (c.done_forwarding n).fwd_cnt = c.fwd_cnt + n
    ∧ c.fwd_cnt ≤ (c.done_forwarding n).fwd_cnt := by
  have hn : n < U32M := by omega
  have h1 : (c.done_forwarding n).fwd_cnt = c.fwd_cnt + n := by
    show (c.fwd_cnt + n % U32M) % U32M = c.fwd_cnt + n
    rw [Nat.mod_eq_of_lt hn, Nat.mod_eq_of_lt h]
  exact ⟨h1, by omega⟩

/-- C9 (witness): acknowledging 3 bytes on a record with forwarded
counter 5 yields forwarded counter 8. -/
theorem c9_witness :
    (ConnectionInfo.done_forwarding
      { dst := ⟨0, 0⟩, src_port := 0, peer_buf_alloc := 0,
        peer_fwd_cnt := 0, tx_cnt := 0, fwd_cnt := 5,
        has_pending_credit_request := false } 3).fwd_cnt = 5 + 3 :=
  (c9_done_forwarding
    { dst := ⟨0, 0⟩, src_port := 0, peer_buf_alloc := 0,
      peer_fwd_cnt := 0, tx_cnt := 0, fwd_cnt := 5,
      has_pending_credit_request := false } 3 (by decide)).1

set_option maxRecDepth 8000 in
/-- C10: a freshly created connection record has all four credit counters
zero and the pending flag false, hence `peer_free` is zero; consequently
the first `send` of any non-empty payload on a fresh record fails with
the insufficient-peer-buffer error, transmits exactly one credit-request
packet and sets the pending flag. -/
theorem c10_fresh_connection (dst : VsockAddr) (sp : Nat) (s : DriverState)
    (payload : List Nat) (h : payload ≠ []) :
    (ConnectionInfo.new dst sp).peer_buf_alloc = 0
    ∧ (ConnectionInfo.new dst sp).peer_fwd_cnt = 0
    ∧ (ConnectionInfo.new dst sp).tx_cnt = 0
    ∧ (ConnectionInfo.new dst sp).fwd_cnt = 0
    ∧ (ConnectionInfo.new dst sp).has_pending_credit_request = false
    ∧ (ConnectionInfo.new dst sp).peer_free = 0
    ∧ (send s payload (ConnectionInfo.new dst sp)).1
        = .error .InsufficientBufferSpaceInPeer
    ∧ (send s payload (ConnectionInfo.new dst sp)).2.1.txPackets
        = s.txPackets
            ++ [({ (ConnectionInfo.new dst sp).new_header s.guest_cid with
                   op := OP_CREDIT_REQUEST }, [])]
    ∧ (send s payload (ConnectionInfo.new dst sp)).2.2.has_pending_credit_request
        = true := by
  have hfree : (ConnectionInfo.new dst sp).peer_free = 0 := by
    show wsub 0 (wsub 0 0) = 0
    decide
  have hpos : 0 < payload.length := List.length_pos.mpr h
  have hnot : ¬ payload.length ≤ (ConnectionInfo.new dst sp).peer_free := by
    rw [hfree]; omega
  have hflag : (ConnectionInfo.new dst sp).has_pending_credit_request
      = false := rfl
  refine ⟨rfl, rfl, rfl, rfl, rfl, hfree, ?_, ?_, ?_⟩ <;>
    simp [send, check_peer_buffer_is_sufficient, hnot, hflag, request_credit,
      send_packet_to_tx_queue]

/-- C10 (witness): on a fresh record, sending the one-byte payload `[1]`
fails with the insufficient-peer-buffer error. -/
theorem c10_witness :
    (send { guest_cid := 3, txPackets := [] } [1]
        (ConnectionInfo.new ⟨2, 40⟩ 5000)).1
      = .error .InsufficientBufferSpaceInPeer :=
  (c10_fresh_connection ⟨2, 40⟩ 5000 { guest_cid := 3, txPackets := [] } [1]
    (by decide)).2.2.2.2.2.2.1

/-- C1: when the payload exceeds the cached peer credit, `send` fails
with the insufficient-peer-buffer error; if no credit request is pending
it transmits exactly one credit-request packet and sets the pending flag,
and if one is already pending it transmits nothing and leaves the record
unchanged; hence a second over-budget `send` (before any credit update)
also fails and transmits zero additional packets. -/
theorem c1_send_insufficient (s : DriverState) (c : ConnectionInfo)
    (buffer : List Nat) (hlen : c.peer_free < buffer.length) :
    (send s buffer c).1 = .error .InsufficientBufferSpaceInPeer
    ∧ (c.has_pending_credit_request = false →
        (send s buffer c).2.1.txPackets
          = s.txPackets
              ++ [({ c.new_header s.guest_cid with op := OP_CREDIT_REQUEST },
                   [])]
        ∧ (send s buffer c).2.2.has_pending_credit_request = true)
    ∧ (c.has_pending_credit_request = true →
        (send s buffer c).2.1 = s ∧ (send s buffer c).2.2 = c)
    ∧ (send (send s buffer c).2.1 buffer (send s buffer c).2.2).1
        = .error .InsufficientBufferSpaceInPeer
    ∧ (send (send s buffer c).2.1 buffer (send s buffer c).2.2).2.1.txPackets
        = (send s buffer c).2.1.txPackets := by
  have hnot : ¬ buffer.length ≤ c.peer_free := by omega
  cases hf : c.has_pending_credit_request with
  | true =>
    have h1 : send s buffer c
        = (.error .InsufficientBufferSpaceInPeer, s, c) := by
      simp [send, check_peer_buffer_is_sufficient, hnot, hf]
    rw [h1]
    exact ⟨rfl, by simp [hf], fun _ => ⟨rfl, rfl⟩,
      by simp [send, check_peer_buffer_is_sufficient, hnot, hf],
      by simp [send, check_peer_buffer_is_sufficient, hnot, hf]⟩
  | false =>
    have h1 : send s buffer c
        = (.error .InsufficientBufferSpaceInPeer, request_credit s c,
           { c with has_pending_credit_request := true }) := by
      simp [send, check_peer_buffer_is_sufficient, hnot, hf]
    have hnot2 : ¬ buffer.length
        ≤ ({ c with has_pending_credit_request := true }
            : ConnectionInfo).peer_free := by
      have : ({ c with has_pending_credit_request := true }
          : ConnectionInfo).peer_free = c.peer_free := rfl
      rw [this]; omega
    rw [h1]
    refine ⟨rfl, fun _ => ⟨?_, rfl⟩, fun habs => ?_, ?_, ?_⟩
    · simp [request_credit, send_packet_to_tx_queue]
    · simp at habs
    · simp [send, check_peer_buffer_is_sufficient, hnot2]
    · simp [send, check_peer_buffer_is_sufficient, hnot2]

/-- C1 (witness): with cached peer credit 5 and a 6-byte payload, the
second over-budget `send` appends nothing to the transmit log. -/
theorem c1_witness :
    (send
        (send { guest_cid := 7, txPackets := [] } [1, 2, 3, 4, 5, 6]
          { dst := ⟨1, 2⟩, src_port := 3, peer_buf_alloc := 5,
            peer_fwd_cnt := 0, tx_cnt := 0, fwd_cnt := 0,
            has_pending_credit_request := false }).2.1
        [1, 2, 3, 4, 5, 6]
        (send { guest_cid := 7, txPackets := [] } [1, 2, 3, 4, 5, 6]
          { dst := ⟨1, 2⟩, src_port := 3, peer_buf_alloc := 5,
            peer_fwd_cnt := 0, tx_cnt := 0, fwd_cnt := 0,
            has_pending_credit_request := false }).2.2).2.1.txPackets
      = (send { guest_cid := 7, txPackets := [] } [1, 2, 3, 4, 5, 6]
          { dst := ⟨1, 2⟩, src_port := 3, peer_buf_alloc := 5,
            peer_fwd_cnt := 0, tx_cnt := 0, fwd_cnt := 0,
            has_pending_credit_request := false }).2.1.txPackets :=
  (c1_send_insufficient { guest_cid := 7, txPackets := [] }
    { dst := ⟨1, 2⟩, src_port := 3, peer_buf_alloc := 5,
      peer_fwd_cnt := 0, tx_cnt := 0, fwd_cnt := 0,
      has_pending_credit_request := false }
    [1, 2, 3, 4, 5, 6] (by decide)).2.2.2.2

/-- C4: when the payload fits in the cached peer credit, `send` succeeds,
transmits exactly one data packet whose header carries the `Rw` op, the
payload length, a zero buffer allocation and the record's current
forwarded count, and the record changes only by advancing `tx_cnt` by the
payload length (modulo `2^32`; exactly, absent `u32` overflow). -/
theorem c4_send_within_credit (s : DriverState) (c : ConnectionInfo)
    (buffer : List Nat) (h : buffer.length ≤ c.peer_free) :
    (send s buffer c).1 = .ok ()
    ∧ (send s buffer c).2.1.txPackets
        = s.txPackets
            ++ [({ c.new_header s.guest_cid with
                   op := OP_RW, len := buffer.length, buf_alloc := 0 },
                 buffer)]
    ∧ (send s buffer c).2.2
        = { c with tx_cnt := (c.tx_cnt + buffer.length) % U32M }
    ∧ (c.tx_cnt + buffer.length < U32M →
        (send s buffer c).2.2.tx_cnt = c.tx_cnt + buffer.length) := by
  have hlt : buffer.length < U32M := lt_of_le_of_lt h (peer_free_lt c)
  have hmod : buffer.length % U32M = buffer.length := Nat.mod_eq_of_lt hlt
  refine ⟨?_, ?_, ?_, fun hov => ?_⟩
  · simp [send, check_peer_buffer_is_sufficient, h]
  · simp [send, check_peer_buffer_is_sufficient, h, send_packet_to_tx_queue,
      hmod]
  · simp [send, check_peer_buffer_is_sufficient, h, hmod]
  · simp [send, check_peer_buffer_is_sufficient, h, hmod,
      Nat.mod_eq_of_lt hov]

/-- C4 (witness): sending a 3-byte payload with cached peer credit 10
advances `tx_cnt` from 0 to exactly 3. -/
theorem c4_witness :
    (send { guest_cid := 9, txPackets := [] } [1, 2, 3]
        { dst := ⟨1, 2⟩, src_port := 3, peer_buf_alloc := 10,
          peer_fwd_cnt := 0, tx_cnt := 0, fwd_cnt := 4,
          has_pending_credit_request := false }).2.2.tx_cnt
      = 0 + 3 :=
  (c4_send_within_credit { guest_cid := 9, txPackets := [] }
    { dst := ⟨1, 2⟩, src_port := 3, peer_buf_alloc := 10,
      peer_fwd_cnt := 0, tx_cnt := 0, fwd_cnt := 4,
      has_pending_credit_request := false }
    [1, 2, 3] (by decide)).2.2.2 (by decide)

/-- C6: the packet codec fails with the too-short error when the buffer
lacks the header or the declared body, with the overflow error when
header-size plus declared body length exceeds the largest representable
`usize`, and with the undersized-output error carrying the declared body
length when the output buffer is shorter than the declared body;
otherwise it copies exactly the declared body bytes into the front of the
output buffer (leaving its tail untouched) and returns the decoded
header. -/
theorem c6_read_header_and_body (u : Nat) (buffer body : List Nat) :
    (buffer.length < HDR_SIZE →
      read_header_and_body u buffer body = .error .BufferTooShort)
    ∧ (HDR_SIZE ≤ buffer.length →
        u < HDR_SIZE + (decodeHdr buffer).len →
        read_header_and_body u buffer body = .error .InvalidNumber)
    ∧ (HDR_SIZE ≤ buffer.length →
        HDR_SIZE + (decodeHdr buffer).len ≤ u →
        buffer.length < HDR_SIZE + (decodeHdr buffer).len →
        read_header_and_body u buffer body = .error .BufferTooShort)
    ∧ (HDR_SIZE ≤ buffer.length →
        HDR_SIZE + (decodeHdr buffer).len ≤ u →
        HDR_SIZE + (decodeHdr buffer).len ≤ buffer.length →
        body.length < (decodeHdr buffer).len →
        read_header_and_body u buffer body
          = .error (.OutputBufferTooShort (decodeHdr buffer).len))
    ∧ (HDR_SIZE ≤ buffer.length →
        HDR_SIZE + (decodeHdr buffer).len ≤ u →
        HDR_SIZE + (decodeHdr buffer).len ≤ buffer.length →
        (decodeHdr buffer).len ≤ body.length →
        read_header_and_body u buffer body
          = .ok (decodeHdr buffer,
                 (buffer.drop HDR_SIZE).take (decodeHdr buffer).len
                   ++ body.drop (decodeHdr buffer).len)) := by
  refine ⟨fun h1 => ?_, fun h1 h2 => ?_, fun h1 h2 h3 => ?_,
    fun h1 h2 h3 h4 => ?_, fun h1 h2 h3 h4 => ?_⟩
  · simp only [read_header_and_body]
    rw [if_pos h1]
  · simp only [read_header_and_body]
    rw [if_neg (by omega), if_pos h2]
  · simp only [read_header_and_body]
    rw [if_neg (by omega), if_neg (by omega), if_pos h3]
  · simp only [read_header_and_body]
    rw [if_neg (by omega), if_neg (by omega), if_neg (by omega), if_pos h4]
  · simp only [read_header_and_body]
    rw [if_neg (by omega), if_neg (by omega), if_neg (by omega),
      if_neg (by omega)]

/-- C6 (witness): a 46-byte buffer whose header declares a 2-byte body
decodes successfully into a 3-byte output buffer, copying exactly the two
body bytes over its front. -/
theorem c6_witness :
    read_header_and_body 4294967339
        (List.replicate 24 0 ++ [2, 0, 0, 0] ++ List.replicate 16 0 ++ [7, 9])
        [5, 6, 8]
      = .ok (decodeHdr
               (List.replicate 24 0 ++ [2, 0, 0, 0] ++ List.replicate 16 0
                 ++ [7, 9]),
             ((List.replicate 24 0 ++ [2, 0, 0, 0] ++ List.replicate 16 0
                 ++ [7, 9]).drop HDR_SIZE).take
                 (decodeHdr
                   (List.replicate 24 0 ++ [2, 0, 0, 0] ++ List.replicate 16 0
                     ++ [7, 9])).len
               ++ [5, 6, 8].drop
                   (decodeHdr
                     (List.replicate 24 0 ++ [2, 0, 0, 0]
                       ++ List.replicate 16 0 ++ [7, 9])).len) :=
  (c6_read_header_and_body 4294967339
    (List.replicate 24 0 ++ [2, 0, 0, 0] ++ List.replicate 16 0 ++ [7, 9])
    [5, 6, 8]).2.2.2.2 (by decide) (by decide) (by decide) (by decide)

/-- C7: whenever an entry has been popped (a token was peeked), the slot
is resubmitted before `pop_packet_from_rx_queue` and `poll_rx_queue`
return — on the successful-decode, silent-drop and decode-failure paths
alike — and the outcome is the fatal assertion failure (not an ordinary
recoverable error) exactly when the resubmission yields a token different
from the popped one. -/
theorem c7_resubmission (u : Nat) (buffer body : List Nat) (t newTok : Nat) :
    (pop_packet_from_rx_queue u (some t) buffer body newTok).2 = true
    ∧ ((pop_packet_from_rx_queue u (some t) buffer body newTok).1 = .fatal
        ↔ newTok ≠ t)
    ∧ (poll_rx_queue u (some t) buffer body newTok).2 = true
    ∧ ((poll_rx_queue u (some t) buffer body newTok).1 = .fatal
        ↔ newTok ≠ t) := by
  by_cases hnt : newTok = t
  · cases hres : read_header_and_body u buffer body with
    | ok v =>
      obtain ⟨hd, bd⟩ := v
      refine ⟨?_, ?_, ?_, ?_⟩ <;>
        simp [poll_rx_queue, pop_packet_from_rx_queue, hnt, hres]
    | error e =>
      refine ⟨?_, ?_, ?_, ?_⟩ <;>
        simp [poll_rx_queue, pop_packet_from_rx_queue, hnt, hres]
  · refine ⟨?_, ?_, ?_, ?_⟩ <;>
      simp [poll_rx_queue, pop_packet_from_rx_queue, hnt]

/-- C2: given a popped entry that decodes successfully, `poll_rx_queue`
classifies it exactly by operation code — connection-request is dropped
silently, response yields a connected event, credit-update a
credit-update event, reset and shutdown disconnected events with the
corresponding reason, data a data-received event carrying the header's
declared length, credit-request a credit-request event, any other code
the invalid-operation error — every empty-body branch fails with the
body-validation error when the header declares a non-zero length, at most
one event is produced per call, and an empty queue yields no event. -/
theorem c2_poll_classification (u : Nat) (buffer body body2 : List Nat)
    (t : Nat) (hdr : VirtioVsockHdr)
    (hdec : read_header_and_body u buffer body = .ok (hdr, body2)) :
    poll_rx_queue u none buffer body t = (.res (.ok none) body, false)
    ∧ (opFromU16 hdr.op = .Request → hdr.len = 0 →
        poll_rx_queue u (some t) buffer body t
          = (.res (.ok none) body2, true))
    ∧ (opFromU16 hdr.op = .Response → hdr.len = 0 →
        poll_rx_queue u (some t) buffer body t
          = (.res (.ok (some
              { source := hdr.source, destination := hdr.destination,
                buffer_status := { buffer_allocation := hdr.buf_alloc,
                                   forward_count := hdr.fwd_cnt },
                event_type := .Connected })) body2, true))
    ∧ (opFromU16 hdr.op = .CreditUpdate → hdr.len = 0 →
        poll_rx_queue u (some t) buffer body t
          = (.res (.ok (some
              { source := hdr.source, destination := hdr.destination,
                buffer_status := { buffer_allocation := hdr.buf_alloc,
                                   forward_count := hdr.fwd_cnt },
                event_type := .CreditUpdate })) body2, true))
    ∧ (opFromU16 hdr.op = .Rst → hdr.len = 0 →
        poll_rx_queue u (some t) buffer body t
          = (.res (.ok (some
              { source := hdr.source, destination := hdr.destination,
                buffer_status := { buffer_allocation := hdr.buf_alloc,
                                   forward_count := hdr.fwd_cnt },
                event_type := .Disconnected .Reset })) body2, true))
    ∧ (opFromU16 hdr.op = .Shutdown → hdr.len = 0 →
        poll_rx_queue u (some t) buffer body t
          = (.res (.ok (some
              { source := hdr.source, destination := hdr.destination,
                buffer_status := { buffer_allocation := hdr.buf_alloc,
                                   forward_count := hdr.fwd_cnt },
                event_type := .Disconnected .Shutdown })) body2, true))
    ∧ (opFromU16 hdr.op = .Rw →
        poll_rx_queue u (some t) buffer body t
          = (.res (.ok (some
              { source := hdr.source, destination := hdr.destination,
                buffer_status := { buffer_allocation := hdr.buf_alloc,
                                   forward_count := hdr.fwd_cnt },
                event_type := .Received hdr.len })) body2, true))
    ∧ (opFromU16 hdr.op = .CreditRequest → hdr.len = 0 →
        poll_rx_queue u (some t) buffer body t
          = (.res (.ok (some
              { source := hdr.source, destination := hdr.destination,
                buffer_status := { buffer_allocation := hdr.buf_alloc,
                                   forward_count := hdr.fwd_cnt },
                event_type := .CreditRequest })) body2, true))
    ∧ (opFromU16 hdr.op = .Invalid →
        poll_rx_queue u (some t) buffer body t
          = (.res (.error .InvalidOperation) body2, true))
    ∧ (opFromU16 hdr.op ≠ .Rw → opFromU16 hdr.op ≠ .Invalid → hdr.len ≠ 0 →
        poll_rx_queue u (some t) buffer body t
          = (.res (.error .UnexpectedDataInPacket) body2, true)) := by
  have hpop : pop_packet_from_rx_queue u (some t) buffer body t
      = (.res (.ok (some (hdr, body2))), true) := by
    simp [pop_packet_from_rx_queue, hdec]
  refine ⟨?_, ?_, ?_, ?_, ?_, ?_, ?_, ?_, ?_, ?_⟩
  · simp [poll_rx_queue, pop_packet_from_rx_queue]
  · intro hop hl
    simp [poll_rx_queue, hpop, hop, VirtioVsockHdr.check_data_is_empty, hl]
  · intro hop hl
    simp [poll_rx_queue, hpop, hop, VirtioVsockHdr.check_data_is_empty, hl]
  · intro hop hl
    simp [poll_rx_queue, hpop, hop, VirtioVsockHdr.check_data_is_empty, hl]
  · intro hop hl
    simp [poll_rx_queue, hpop, hop, VirtioVsockHdr.check_data_is_empty, hl]
  · intro hop hl
    simp [poll_rx_queue, hpop, hop, VirtioVsockHdr.check_data_is_empty, hl]
  · intro hop
    simp [poll_rx_queue, hpop, hop]
  · intro hop hl
    simp [poll_rx_queue, hpop, hop, VirtioVsockHdr.check_data_is_empty, hl]
  · intro hop
    simp [poll_rx_queue, hpop, hop]
  · intro hop1 hop2 hl
    cases hcase : opFromU16 hdr.op <;>
      simp_all [poll_rx_queue, hpop, VirtioVsockHdr.check_data_is_empty]

/-- C2 (witness): a header-only packet with the response op code and zero
declared length yields exactly one connected event. -/
theorem c2_witness :
    poll_rx_queue 18446744073709551615 (some 0)
        (List.replicate 24 0 ++ [0, 0, 0, 0] ++ [0, 0] ++ [2, 0]
          ++ List.replicate 12 0) [] 0
      = (.res (.ok (some
          { source := { cid := 0, port := 0 },
            destination := { cid := 0, port := 0 },
            buffer_status := { buffer_allocation := 0, forward_count := 0 },
            event_type := .Connected })) [], true) := by
  have h := (c2_poll_classification 18446744073709551615
    (List.replicate 24 0 ++ [0, 0, 0, 0] ++ [0, 0] ++ [2, 0]
      ++ List.replicate 12 0) [] [] 0
    (decodeHdr (List.replicate 24 0 ++ [0, 0, 0, 0] ++ [0, 0] ++ [2, 0]
      ++ List.replicate 12 0))
    (by decide)).2.2.1 (by decide) (by decide)
  exact h

end Vsock
